import Mathlib

/-!
Verification of the OLX car-cover collection pipeline (src/olx_scraper.py)
against its specification. Python dicts with string keys and string values
are embedded as insertion-ordered association lists; exceptions caught by
the enclosing handlers are embedded as `Option`/`Except` results.
-/

namespace OLX

/-- A raw record / listing: a Python dict of string keys to string values,
in insertion order (keys unique in every dict the program builds). -/
abbrev Raw := List (String × String)

/-- Python `d.get(k, dflt)`. -/
def pyGet (d : Raw) (k dflt : String) : String := (d.lookup k).getD dflt

/-- The key set of a dict, in insertion order (Python `d.keys()`). -/
def keysOf (d : Raw) : List String := d.map Prod.fst

/-- The deduplication key: `listing.get('link', '')` (line 199). -/
def linkOf (d : Raw) : String := pyGet d "link" ""

/-- Worker for `deduplicate_listings`: walks the list carrying the
`seen_links` set (membership is all the program uses, so a list of seen
links is an equivalent embedding of the Python set). -/
def dedupAux (seen : List String) : List Raw → List Raw
  | [] => []
  | d :: rest =>
    let link := linkOf d
    if link ≠ "" ∧ link ∉ seen then d :: dedupAux (link :: seen) rest
    else dedupAux seen rest

/-- `SeleniumOLXScraper.deduplicate_listings` (lines 193-204): keeps a
listing only when its link is non-empty and not seen before, in order. -/
def deduplicate_listings (listings : List Raw) : List Raw := dedupAux [] listings

/-- The fixed search URL (line 29). -/
def search_url : String := "https://www.olx.in/items/q-car-cover"

/-- A Selenium element handle, exposing exactly the capabilities
`parse_selenium_element` uses. `none` in `childAnchorHref`, `headingText`
means `find_element` raised `NoSuchElementException`; the inner `Option`
of `childAnchorHref` is the `href` attribute value (`None` possible). -/
structure SelElement where
  text : String
  tagName : String
  href : Option String
  childAnchorHref : Option (Option String)
  headingText : Option String
  imgSrc : Option (Option String)
  deriving DecidableEq

/-- Whether the character list `hay` starts with `needle`. -/
def startsWithChars : List Char → List Char → Bool
  | [], _ => true
  | _ :: _, [] => false
  | a :: as, b :: bs => a == b && startsWithChars as bs

/-- Whether `needle` occurs as a contiguous run inside `hay` (the Python
`needle in hay` test on strings). -/
def hasInfixChars (needle : List Char) : List Char → Bool
  | [] => needle.isEmpty
  | b :: bs => startsWithChars needle (b :: bs) || hasInfixChars needle bs

/-- Whether a href contains the substring `/item/` (line 153). -/
def itemLink (href : String) : Bool :=
  hasInfixChars "/item/".toList href.toList

/-- The prefix of a string before its first newline:
`element_text.split('\n')[0]` (line 159). -/
def firstLineOf (s : String) : String :=
  String.mk (s.toList.takeWhile fun c => c != '\n')

/-- `SeleniumOLXScraper.parse_selenium_element` (lines 140-191). The whole
body runs inside `try ... except Exception: return None`. The link is the
element itself when its tag is `a`, else the first `a` descendant (a
missing descendant raises, hence `None`). A falsy or non-`/item/` href
discards the element; a title (first text line, falling back to a heading
lookup when shorter than 5 characters) still shorter than 5 characters
discards it. The price step then executes `re.search(...)`, but the module
never imports `re` (lines 1-20), so a `NameError` is raised and caught by
the enclosing handler: every element that reaches this point yields `None`,
and the location / date / image steps are unreachable. -/
def parse_selenium_element (e : SelElement) : Option Raw :=
  match (if e.tagName = "a" then some e.href else e.childAnchorHref) with
  | none => none
  | some none => none
  | some (some href) =>
    if href = "" ∨ itemLink href = false then none
    else
      let firstLine := if e.text = "" then "" else firstLineOf e.text
      match (if firstLine.length < 5 then e.headingText else some firstLine) with
      | none => none
      | some title =>
        if title.length < 5 then none
        else
          none

/-- A page as seen through the three CSS selectors tried in order by
`extract_selenium_listings` (lines 117-121): `[data-aut-id="itemBox"]`,
`.EIR5N`, `a[href*="/item/"]`. -/
structure SelPage where
  itemBoxes : List SelElement
  eir5n : List SelElement
  itemAnchors : List SelElement

/-- The selector-fallback choice (lines 123-136): the first selector
returning a non-empty element list wins; the loop breaks after it. -/
def selectedElements (p : SelPage) : List SelElement :=
  if p.itemBoxes.isEmpty then
    if p.eir5n.isEmpty then p.itemAnchors else p.eir5n
  else p.itemBoxes

/-- `SeleniumOLXScraper.extract_selenium_listings` (lines 112-138): parse
every chosen element (a per-element exception skips that element), then
deduplicate the page result. -/
def extract_selenium_listings (p : SelPage) : List Raw :=
  deduplicate_listings ((selectedElements p).filterMap parse_selenium_element)

/-- The URL requested for a page index (lines 68-71). -/
def pageUrl (page : Nat) : String :=
  if page = 1 then search_url else search_url ++ "?page=" ++ toString page

/-- The page loop of `scrape_with_selenium` (lines 65-104), from a start
index and a remaining page count: every iteration issues one request
(`driver.get`) and extends the accumulator; there is no early exit on an
empty page (an empty page only triggers diagnostic printing and, on page 1,
a debug dump). Returns the requested URLs and the accumulated listings. -/
def scrapeLoop (pages : Nat → SelPage) : Nat → Nat → List String × List Raw
  | _, 0 => ([], [])
  | page, fuel + 1 =>
    let pageListings := extract_selenium_listings (pages page)
    let rest := scrapeLoop pages (page + 1) fuel
    (pageUrl page :: rest.1, pageListings ++ rest.2)

/-- `SeleniumOLXScraper.scrape_with_selenium` (lines 57-110): returns `[]`
with no requests when driver setup fails, else runs the page loop over
pages 1..maxPages. `pages` gives the DOM state rendered for each page. -/
def scrape_with_selenium (pages : Nat → SelPage) (maxPages : Nat) (setupOk : Bool) :
    List String × List Raw :=
  if setupOk then scrapeLoop pages 1 maxPages else ([], [])

/-- A decoded JSON payload as the API parser consumes it: a top-level
object whose relevant keys map to arrays of item objects. -/
abbrev Payload := List (String × List Raw)

/-- The fixed candidate endpoint list (lines 224-229). -/
def api_urls : List String :=
  ["https://www.olx.in/api/relevance/v2/search",
   "https://www.olx.in/api/relevance/v3/search",
   "https://mobile-api.olx.in/v1/search",
   "https://www.olx.in/ajax/search"]

/-- The acceptance test on a decoded payload (line 246):
`'data' in data or 'results' in data or 'ads' in data`. -/
def hasExpectedKey (p : Payload) : Bool :=
  (p.lookup "data").isSome || (p.lookup "results").isSome || (p.lookup "ads").isSome

/-- Item extraction (line 263):
`data.get('data', data.get('results', data.get('ads', [])))`. -/
def extractItems (p : Payload) : List Raw :=
  ((p.lookup "data").orElse fun _ =>
    ((p.lookup "results").orElse fun _ => p.lookup "ads")).getD []

/-- Per-item normalization in `parse_api_response` (lines 267-274): each
canonical field prefers its primary key, then its alternate key, then the
sentinel `N/A`. `item.get` never raises, so the per-item handler is inert
and every item yields a listing. -/
def normalize_api_item (item : Raw) : Raw :=
  [("title", pyGet item "title" (pyGet item "name" "N/A")),
   ("price", pyGet item "price" (pyGet item "amount" "N/A")),
   ("location", pyGet item "location" (pyGet item "city" "N/A")),
   ("date", pyGet item "created_at" (pyGet item "date" "N/A")),
   ("link", pyGet item "url" (pyGet item "link" "N/A")),
   ("image_url", pyGet item "image" (pyGet item "photo" "N/A"))]

/-- `APIBasedScraper.parse_api_response` (lines 258-279). -/
def parse_api_response (data : Payload) : List Raw :=
  (extractItems data).map normalize_api_item

/-- The outcome of one HTTP GET against a candidate endpoint: the request
raised, or returned a status code with a body that either failed JSON
decoding (`none`) or decoded to a payload. -/
inductive ApiResp where
  | raises : ApiResp
  | status : Nat → Option Payload → ApiResp

/-- The request parameters attached to every endpoint probe (lines
233-238). -/
def apiParams (query location : String) (limit : Nat) : List (String × String) :=
  [("q", query), ("location", location), ("limit", toString limit),
   ("category", "vehicles")]

/-- Whether an endpoint is accepted by the probe loop: status 200, body
decodes, and the payload carries an expected top-level key. -/
def acceptable (respond : String → ApiResp) (u : String) : Bool :=
  match respond u with
  | .status code (some p) => code = 200 && hasExpectedKey p
  | _ => false

/-- The decoded payload of an endpoint response, when there is one. -/
def payloadOf (respond : String → ApiResp) (u : String) : Payload :=
  match respond u with
  | .status _ (some p) => p
  | _ => []

/-- The endpoint iteration of `search_olx_api` (lines 231-256): each
candidate is requested in order with the query parameters; a transport
error, non-200 status, JSON decode failure, or missing expected key moves
on to the next candidate; the first acceptable payload is parsed and
returned at once. Returns the issued requests (URL with parameters) and
the result listings. -/
def probeLoop (respond : String → ApiResp) (query location : String) (limit : Nat) :
    List String → List (String × List (String × String)) × List Raw
  | [] => ([], [])
  | u :: rest =>
    let req := (u, apiParams query location limit)
    let skip := probeLoop respond query location limit rest
    match respond u with
    | .raises => (req :: skip.1, skip.2)
    | .status code body =>
      match body with
      | none => (req :: skip.1, skip.2)
      | some p =>
        if code = 200 && hasExpectedKey p then ([req], parse_api_response p)
        else (req :: skip.1, skip.2)

/-- `APIBasedScraper.search_olx_api` (lines 219-256): probes the fixed
endpoint list; no success yields `([all requests], [])`, not an error. -/
def search_olx_api (respond : String → ApiResp) (query location : String) (limit : Nat) :
    List (String × List (String × String)) × List Raw :=
  probeLoop respond query location limit api_urls

/-- An Amazon search-result card as `scrape_amazon_car_covers` reads it:
the text of the `h2.a-size-mini` title element (absent allowed), the text
of the `span.a-price-whole` element, and the anchor under the first `h2`:
`none` when there is no such anchor (link resolves to the `N/A` sentinel),
`some none` when the anchor lacks an `href` attribute (subscripting raises
`KeyError`), `some (some h)` when the href is `h`. -/
structure AmazonProduct where
  titleMini : Option String
  priceWhole : Option String
  anchor : Option (Option String)

/-- The per-product body of `scrape_amazon_car_covers` (lines 413-434),
inside `try ... except: continue`: a missing title or price or anchor
resolves to a sentinel; only the `KeyError` on an href-less anchor skips
a product. -/
def parse_amazon_product (p : AmazonProduct) : Option Raw :=
  match p.anchor with
  | some none => none
  | a =>
    some [("title", (p.titleMini.map String.trim).getD "N/A"),
          ("price", (p.priceWhole.map (fun t => "₹" ++ t)).getD "N/A"),
          ("location", "Amazon India"),
          ("date", "Available"),
          ("link", (match a with
                    | some (some h) => "https://amazon.in" ++ h
                    | _ => "N/A")),
          ("image_url", "N/A"),
          ("source", "Amazon")]

/-- The product loop of `AlternativeDataSources.scrape_amazon_car_covers`
(lines 396-442) over the search-result cards of a fetched page. -/
def scrape_amazon_car_covers (products : List AmazonProduct) : List Raw :=
  products.filterMap parse_amazon_product

/-- What one strategy call delivered to `main`: either the listing list it
returned, or the exception it raised. -/
abbrev StrategyOutcome := Except String (List Raw)

/-- The `try ... except` wrapping of each strategy call in `main` (lines
479-512): a raising strategy contributes nothing. -/
def contribution : StrategyOutcome → List Raw
  | .error _ => []
  | .ok l => l

/-- The externally visible outcome of `main` (lines 471-524): the
accumulated listing list, whether `save_results` was invoked (hence
whether output files are written), and whether the zero-results message
with its remediation recommendations (lines 519-524) was printed. -/
structure MainReport where
  listings : List Raw
  saved : Bool
  reportedZero : Bool
  deriving DecidableEq

/-- The orchestrator `main` (lines 471-524) over the outcomes of its three
strategy calls (Selenium, API, Amazon alternative): it concatenates the
contributions in order and persists iff the accumulator is non-empty. No
deduplication is applied here. -/
def mainRun (selenium api alt : StrategyOutcome) : MainReport :=
  let all := contribution selenium ++ contribution api ++ contribution alt
  if all = [] then ⟨all, false, true⟩ else ⟨all, true, false⟩

/-- The files written by `save_results`: the CSV as a header row plus data
rows, and the JSON object fields (lines 526-543). -/
structure SavedFiles where
  csvRows : List (List String)
  jsonTimestamp : String
  jsonTotal : Nat
  jsonListings : List Raw
  deriving DecidableEq

/-- One `csv.DictWriter.writerow` call: a row dict holding a key outside
the writer fieldnames raises `ValueError` (the default
`extrasaction='raise'`); a missing key fills with the default `restval`,
an empty cell. -/
def csvRow (fieldnames : List String) (d : Raw) : Except String (List String) :=
  if (keysOf d).all (fun k => decide (k ∈ fieldnames)) then
    .ok (fieldnames.map fun k => pyGet d k "")
  else .error "ValueError: dict contains fields not in fieldnames"

/-- Sequential `writer.writerows(listings)`: rows are written in order and
the first mismatched row aborts with the `ValueError`. -/
def csvRows (fieldnames : List String) : List Raw → Except String (List (List String))
  | [] => .ok []
  | d :: rest =>
    match csvRow fieldnames d with
    | .error e => .error e
    | .ok row =>
      match csvRows fieldnames rest with
      | .error e => .error e
      | .ok rows => .ok (row :: rows)

/-- `save_results` (lines 526-543): field names are the keys of the FIRST
listing; every listing is written as a CSV row (a mismatched row surfaces
the `ValueError`), and the JSON object holds the timestamp, the count and
the listings. With an empty input the `if listings:` guard writes no CSV
content. -/
def save_results (now : String) (listings : List Raw) : Except String SavedFiles :=
  match listings with
  | [] => .ok ⟨[], now, 0, []⟩
  | first :: rest =>
    let fieldnames := keysOf first
    match csvRows fieldnames (first :: rest) with
    | .error e => .error e
    | .ok rows => .ok ⟨fieldnames :: rows, now, (first :: rest).length, first :: rest⟩

/-- Occurrences of a given link value in a listing sequence. -/
def countLink (l : String) (ls : List Raw) : Nat :=
  ls.countP fun d => decide (linkOf d = l)

/-- The page indices 1..n visited by the page loop, as a list starting at a
given index. -/
def rangeFrom : Nat → Nat → List Nat
  | _, 0 => []
  | a, n + 1 => a :: rangeFrom (a + 1) n

/-- Sample input for the deduplicator property. -/
def dedupSample : List Raw :=
  [[("title", "A"), ("link", "https://x/item/1")],
   [("title", "B"), ("link", "https://x/item/1")],
   [("title", "C"), ("link", "https://x/item/2")]]

/-- A fully populated element handle: an anchor with an `/item/` detail
link, a long first text line, a price token, a location token and a
relative date in its text, and an image. -/
def richElement : SelElement :=
  { text := "Waterproof Car Cover for Sedan\n₹ 1,499\nMumbai, Maharashtra\nToday",
    tagName := "a",
    href := some "https://www.olx.in/item/waterproof-car-cover-iid-1774",
    childAnchorHref := none,
    headingText := none,
    imgSrc := some (some "https://apollo.olx.in/img1.jpg") }

/-- A run in which every page renders zero candidate elements under every
selector. -/
def emptyPages : Nat → SelPage := fun _ => ⟨[], [], []⟩

/-- An API payload carrying the same item twice (same `url`). -/
def dupApiPayload : Payload :=
  [("data", [[("title", "Car Cover"), ("url", "https://x/item/1")],
             [("title", "Car Cover"), ("url", "https://x/item/1")]])]

/-- A listing with the six keys the API parser produces. -/
def apiStyleListing : Raw :=
  [("title", "Neoprene Car Cover"), ("price", "N/A"), ("location", "N/A"),
   ("date", "N/A"), ("link", "https://x/item/7"), ("image_url", "N/A")]

/-- A listing with the seven keys the Amazon scraper produces (the extra
`source` key). -/
def amazonStyleListing : Raw :=
  [("title", "WaterProof Cover"), ("price", "₹999"), ("location", "Amazon India"),
   ("date", "Available"), ("link", "https://amazon.in/dp/1"), ("image_url", "N/A"),
   ("source", "Amazon")]

/-- A single well-formed listing. -/
def okListing : Raw := [("title", "A"), ("link", "https://x/item/9")]

/-- A network in which every endpoint request raises. -/
def respondNone : String → ApiResp := fun _ => ApiResp.raises

theorem dedupAux_cons (seen : List String) (d : Raw) (rest : List Raw) :
    dedupAux seen (d :: rest) =
      if linkOf d ≠ "" ∧ linkOf d ∉ seen then d :: dedupAux (linkOf d :: seen) rest
      else dedupAux seen rest := rfl

theorem dedupAux_sublist (xs : List Raw) : ∀ seen, List.Sublist (dedupAux seen xs) xs := by
  induction xs with
  | nil => intro seen; exact List.Sublist.refl _
  | cons d rest ih =>
    intro seen
    rw [dedupAux_cons]
    by_cases h : linkOf d ≠ "" ∧ linkOf d ∉ seen
    · rw [if_pos h]; exact List.Sublist.cons₂ d (ih _)
    · rw [if_neg h]; exact List.Sublist.cons d (ih seen)

theorem dedupAux_links_ne (xs : List Raw) :
    ∀ seen, ∀ d ∈ dedupAux seen xs, linkOf d ≠ "" := by
  induction xs with
  | nil => intro seen d hd; cases hd
  | cons a rest ih =>
    intro seen d hd
    rw [dedupAux_cons] at hd
    by_cases h : linkOf a ≠ "" ∧ linkOf a ∉ seen
    · rw [if_pos h] at hd
      rcases List.mem_cons.mp hd with rfl | hd
      · exact h.1
      · exact ih _ d hd
    · rw [if_neg h] at hd
      exact ih seen d hd

theorem dedupAux_filter (l : String) (hl : l ≠ "") (xs : List Raw) :
    ∀ seen : List String,
      (l ∈ seen → (dedupAux seen xs).filter (fun d => decide (linkOf d = l)) = [])
      ∧ (l ∉ seen → (dedupAux seen xs).filter (fun d => decide (linkOf d = l)) =
          (xs.filter (fun d => decide (linkOf d = l))).take 1) := by
  induction xs with
  | nil => intro seen; exact ⟨fun _ => rfl, fun _ => rfl⟩
  | cons a rest ih =>
    intro seen
    constructor
    · intro hmem
      rw [dedupAux_cons]
      by_cases h : linkOf a ≠ "" ∧ linkOf a ∉ seen
      · have hne : ¬ (linkOf a = l) := fun he => h.2 (he ▸ hmem)
        rw [if_pos h, List.filter_cons]
        simp only [hne, decide_eq_false, Bool.false_eq_true, if_false]
        exact (ih (linkOf a :: seen)).1 (List.mem_cons_of_mem _ hmem)
      · rw [if_neg h]
        exact (ih seen).1 hmem
    · intro hmem
      rw [dedupAux_cons]
      by_cases heq : linkOf a = l
      · have hkeep : linkOf a ≠ "" ∧ linkOf a ∉ seen := ⟨heq ▸ hl, heq ▸ hmem⟩
        rw [if_pos hkeep, List.filter_cons, List.filter_cons]
        have hnil := (ih (linkOf a :: seen)).1 (heq ▸ List.mem_cons_self _ _)
        rw [heq] at hnil
        simp [heq, hnil]
      · have hne : ¬ (linkOf a = l) := heq
        by_cases h : linkOf a ≠ "" ∧ linkOf a ∉ seen
        · rw [if_pos h, List.filter_cons, List.filter_cons]
          simp only [hne, decide_eq_false, Bool.false_eq_true, if_false]
          exact (ih (linkOf a :: seen)).2
            (fun hc => (List.mem_cons.mp hc).elim (fun he => hne he.symm) hmem)
        · rw [if_neg h, List.filter_cons]
          simp only [hne, decide_eq_false, Bool.false_eq_true, if_false]
          exact (ih seen).2 hmem

/-- C7: for every sequence of listings, `deduplicate_listings` keeps, for
each distinct non-empty link value, exactly the first-occurring listing
with that link (the filter of the output by any non-empty link equals the
first element of the filter of the input); the output is a sublist of the
input, so relative order is preserved; every kept listing has a non-empty
link; and links differing only by a trailing slash or by case are treated
as distinct (exact string comparison, no normalization). -/
theorem dedup_unique_first_occurrence (xs : List Raw) :
    List.Sublist (deduplicate_listings xs) xs
    ∧ (∀ d ∈ deduplicate_listings xs, linkOf d ≠ "")
    ∧ (∀ l : String, l ≠ "" →
        (deduplicate_listings xs).filter (fun d => decide (linkOf d = l)) =
          (xs.filter (fun d => decide (linkOf d = l))).take 1)
    ∧ deduplicate_listings
        [[("link", "https://x/a")], [("link", "https://x/a/")], [("link", "https://x/A")]] =
        [[("link", "https://x/a")], [("link", "https://x/a/")], [("link", "https://x/A")]] := by
  refine ⟨dedupAux_sublist xs [], dedupAux_links_ne xs [], ?_, by decide⟩
  intro l hl
  exact (dedupAux_filter l hl xs []).2 (List.not_mem_nil l)

/-- Witness for C7 at a concrete input: among the sample listings two share
the link `https://x/item/1`; the deduplicated output keeps exactly the
first of them. -/
theorem dedup_unique_first_occurrence_witness :
    (deduplicate_listings dedupSample).filter
        (fun d => decide (linkOf d = "https://x/item/1")) =
      (dedupSample.filter (fun d => decide (linkOf d = "https://x/item/1"))).take 1 :=
  (dedup_unique_first_occurrence dedupSample).2.2.1 "https://x/item/1" (by decide)

theorem parse_selenium_element_eq_none (e : SelElement) :
    parse_selenium_element e = none := by
  unfold parse_selenium_element
  cases hif : (if e.tagName = "a" then some e.href else e.childAnchorHref) with
  | none => rfl
  | some o =>
    cases o with
    | none => rfl
    | some href =>
      dsimp only
      by_cases h1 : href = "" ∨ itemLink href = false
      · rw [if_pos h1]
      · rw [if_neg h1]
        cases h2 : (if (if e.text = "" then "" else firstLineOf e.text).length < 5
            then e.headingText
            else some (if e.text = "" then "" else firstLineOf e.text)) with
        | none => rfl
        | some title =>
          dsimp only
          by_cases h3 : title.length < 5
          · rw [if_pos h3]
          · rw [if_neg h3]

theorem extract_selenium_listings_eq_nil (p : SelPage) :
    extract_selenium_listings p = [] := by
  have h : (selectedElements p).filterMap parse_selenium_element = [] := by
    induction selectedElements p with
    | nil => rfl
    | cons a t ih => simp [List.filterMap_cons, parse_selenium_element_eq_none, ih]
  unfold extract_selenium_listings
  rw [h]
  rfl

theorem scrapeLoop_snd_eq_nil (pages : Nat → SelPage) :
    ∀ (fuel start : Nat), (scrapeLoop pages start fuel).2 = [] := by
  intro fuel
  induction fuel with
  | zero => intro start; rfl
  | succ n ih =>
    intro start
    show extract_selenium_listings (pages start) ++ (scrapeLoop pages (start + 1) n).2 = []
    rw [extract_selenium_listings_eq_nil, ih (start + 1)]
    rfl

theorem scrape_with_selenium_snd_eq_nil (pages : Nat → SelPage) (maxPages : Nat)
    (setupOk : Bool) : (scrape_with_selenium pages maxPages setupOk).2 = [] := by
  unfold scrape_with_selenium
  cases setupOk
  · rfl
  · show (scrapeLoop pages 1 maxPages).2 = []
    exact scrapeLoop_snd_eq_nil pages maxPages 1

/-- C3: the price-extraction step of `parse_selenium_element` references
`re`, which the module never imports, so the call raises `NameError` inside
the per-element `try` block and the handler returns `None`; elements that
fail the earlier link or title checks are also discarded. Hence every
element handle parses to `None`, `extract_selenium_listings` always
returns the empty sequence, and the browser-automation strategy
contributes zero listings on every run. -/
theorem selenium_strategy_contributes_nothing :
    (∀ e : SelElement, parse_selenium_element e = none)
    ∧ (∀ p : SelPage, extract_selenium_listings p = [])
    ∧ ∀ (pages : Nat → SelPage) (maxPages : Nat) (setupOk : Bool),
        (scrape_with_selenium pages maxPages setupOk).2 = [] :=
  ⟨parse_selenium_element_eq_none, extract_selenium_listings_eq_nil,
   scrape_with_selenium_snd_eq_nil⟩

/-- C4 (failing input for the code bug): an element with a valid `/item/`
detail link, a first text line far over the 5-character threshold, and
price, location and relative-date tokens in its text is nevertheless
discarded: the extraction reaches the price step, `re.search` raises
`NameError` (the module never imports `re`), and the element handler
resolves the exception to `None` instead of producing a listing with the
matched price/location/date. -/
theorem rich_element_discarded_by_missing_import :
    parse_selenium_element richElement = none := by rfl

theorem scrapeLoop_spec (pages : Nat → SelPage) :
    ∀ (fuel start : Nat),
      (scrapeLoop pages start fuel).1 = (rangeFrom start fuel).map pageUrl
      ∧ (scrapeLoop pages start fuel).2 =
          ((rangeFrom start fuel).map fun i => extract_selenium_listings (pages i)).flatten := by
  intro fuel
  induction fuel with
  | zero => intro start; exact ⟨rfl, rfl⟩
  | succ n ih =>
    intro start
    have h1 := (ih (start + 1)).1
    have h2 := (ih (start + 1)).2
    constructor
    · show pageUrl start :: (scrapeLoop pages (start + 1) n).1 = _
      rw [h1]
      rfl
    · show extract_selenium_listings (pages start) ++ (scrapeLoop pages (start + 1) n).2 = _
      rw [h2]
      rfl

/-- Counterexample to C9 as stated: in a run where page 1 yields zero
parseable listing elements (every selector returns no elements), the loop
does not stop: with `max_pages = 2` the request for page 2 is still
issued. -/
theorem page_loop_does_not_stop_on_empty_page :
    extract_selenium_listings (emptyPages 1) = []
    ∧ (scrape_with_selenium emptyPages 2 true).1 =
        [search_url, search_url ++ "?page=2"] := by
  constructor
  · rfl
  · rfl

/-- C9 amended: whenever driver setup succeeds, the page loop issues
exactly one request per page index from 1 to `max_pages`, in order, and
never stops early — a page yielding zero parseable listing elements only
contributes zero listings (and triggers diagnostics); all later pages are
still fetched. The collected listings are the concatenation of the
per-page extractions. -/
theorem page_loop_requests_every_page (pages : Nat → SelPage) (maxPages : Nat) :
    (scrape_with_selenium pages maxPages true).1 = (rangeFrom 1 maxPages).map pageUrl
    ∧ (scrape_with_selenium pages maxPages true).2 =
        ((rangeFrom 1 maxPages).map fun i => extract_selenium_listings (pages i)).flatten := by
  have h := scrapeLoop_spec pages maxPages 1
  exact ⟨h.1, h.2⟩

theorem mainRun_listings (s a m : StrategyOutcome) :
    (mainRun s a m).listings = contribution s ++ contribution a ++ contribution m := by
  simp only [mainRun]
  split <;> rfl

/-- Counterexample to C1: when the endpoint-probe strategy returns the
same item twice (same `url`), `main` persists both copies — it invokes
`save_results` (`saved = true`) on an accumulated sequence holding two
listings with the identical link, because no deduplication pass runs
between accumulation and persistence. -/
theorem final_set_contains_duplicate_links :
    (mainRun (Except.ok []) (Except.ok (parse_api_response dupApiPayload))
        (Except.ok [])).saved = true
    ∧ countLink "https://x/item/1"
        (mainRun (Except.ok []) (Except.ok (parse_api_response dupApiPayload))
          (Except.ok [])).listings = 2 := by
  constructor
  · rfl
  · rfl

/-- C1 amended: the Orchestrator applies no Deduplicator before
persistence — the persisted sequence is the concatenation of the three
strategy contributions, so for every link value the number of persisted
listings carrying it is the sum over the strategies, and duplicates
survive. (Deduplication happens only inside the browser-automation
strategy, per page.) -/
theorem no_global_dedup_link_counts_additive (s a m : StrategyOutcome) (l : String) :
    countLink l (mainRun s a m).listings =
      countLink l (contribution s) + countLink l (contribution a) +
        countLink l (contribution m) := by
  rw [countLink, mainRun_listings]
  simp [countLink, List.countP_append, Nat.add_assoc]

/-- C5: a strategy whose fetch raises contributes zero listings
(`contribution` of an exception is empty), the exception is caught at the
strategy boundary inside `main` — whichever of the three slots raises, the
run continues and the other contributions are accumulated — and when a
later strategy returns records they are persisted (`save_results` is
invoked and each such record is in the persisted sequence). -/
theorem failing_strategy_contained (err : String) (x y : StrategyOutcome) :
    contribution (Except.error err) = []
    ∧ (mainRun (Except.error err) x y).listings = contribution x ++ contribution y
    ∧ (mainRun x (Except.error err) y).listings = contribution x ++ contribution y
    ∧ (mainRun x y (Except.error err)).listings = contribution x ++ contribution y
    ∧ (contribution x ≠ [] →
        (mainRun (Except.error err) x y).saved = true
        ∧ ∀ d ∈ contribution x, d ∈ (mainRun (Except.error err) x y).listings) := by
  refine ⟨rfl, ?_, ?_, ?_, ?_⟩
  · rw [mainRun_listings]; rfl
  · rw [mainRun_listings]; simp [contribution]
  · rw [mainRun_listings]; simp [contribution]
  · intro hx
    have hne : ¬ (contribution (Except.error err) ++ contribution x ++ contribution y
        = []) := by
      simp only [contribution, List.nil_append]
      intro hc
      exact hx (List.append_eq_nil.mp hc).1
    constructor
    · simp only [mainRun]
      rw [if_neg hne]
    · intro d hd
      rw [mainRun_listings]
      simp only [contribution, List.nil_append]
      exact List.mem_append_left _ hd

/-- Witness for C5 at concrete outcomes: the first strategy raises, the
second returns one listing; `save_results` is still invoked. -/
theorem failing_strategy_contained_witness :
    (mainRun (Except.error "boom") (Except.ok [okListing]) (Except.ok [])).saved
      = true :=
  ((failing_strategy_contained "boom" (Except.ok [okListing])
      (Except.ok [])).2.2.2.2 (by decide)).1

/-- C6: when every strategy contributes zero listings, `main` ends with an
empty accumulated sequence (returned as data, not an error), does not
invoke `save_results` (hence writes no output files), and prints the
zero-results message with its remediation recommendations. -/
theorem all_strategies_empty_zero_results (s a m : StrategyOutcome)
    (hs : contribution s = []) (ha : contribution a = []) (hm : contribution m = []) :
    (mainRun s a m).listings = [] ∧ (mainRun s a m).saved = false
    ∧ (mainRun s a m).reportedZero = true := by
  have h : contribution s ++ contribution a ++ contribution m = [] := by
    rw [hs, ha, hm]; rfl
  have hall : mainRun s a m = ⟨[], false, true⟩ := by
    simp only [mainRun]
    rw [if_pos h, h]
  rw [hall]
  exact ⟨rfl, rfl, rfl⟩

/-- Witness for C6 at concrete outcomes: two raising strategies and one
returning the empty list end in the zero-results report. -/
theorem all_strategies_empty_zero_results_witness :
    (mainRun (Except.error "e1") (Except.ok []) (Except.error "e3")).reportedZero
      = true :=
  (all_strategies_empty_zero_results (Except.error "e1") (Except.ok [])
    (Except.error "e3") rfl rfl rfl).2.2

/-- Counterexample to C2: a raw item with no keys at all — title and link
both missing — is NOT discarded: `parse_api_response` constructs a listing
for it, with every field resolved to the `N/A` sentinel (including `title`
and `link`). -/
theorem empty_api_item_constructs_listing :
    parse_api_response [("data", [([] : Raw)])] =
      [[("title", "N/A"), ("price", "N/A"), ("location", "N/A"), ("date", "N/A"),
        ("link", "N/A"), ("image_url", "N/A")]] := by rfl

/-- C2 amended: the normalizers never discard a record for a missing or
empty title or link. The API normalizer yields exactly one listing per raw
item (lengths match), and a missing title (no `title`/`name` key) or
missing link (no `url`/`link` key) resolves to the `N/A` sentinel exactly
like every other missing field; the Amazon extractor likewise constructs a
listing with `title = "N/A"` and `link = "N/A"` for a product card with no
title element and no anchor (it discards a product only on an unexpected
per-product exception, e.g. an anchor lacking an `href` attribute). -/
theorem normalizer_keeps_missing_title_and_link (items : List Raw) :
    (parse_api_response [("data", items)]).length = items.length
    ∧ (∀ item : Raw, item.lookup "title" = none → item.lookup "name" = none →
        pyGet (normalize_api_item item) "title" "" = "N/A")
    ∧ (∀ item : Raw, item.lookup "url" = none → item.lookup "link" = none →
        pyGet (normalize_api_item item) "link" "" = "N/A")
    ∧ ∀ priceText : Option String,
        parse_amazon_product ⟨none, priceText, none⟩ =
          some [("title", "N/A"),
                ("price", (priceText.map (fun t => "₹" ++ t)).getD "N/A"),
                ("location", "Amazon India"), ("date", "Available"),
                ("link", "N/A"), ("image_url", "N/A"), ("source", "Amazon")] := by
  refine ⟨?_, ?_, ?_, fun _ => rfl⟩
  · show ((extractItems [("data", items)]).map normalize_api_item).length = items.length
    have h : extractItems [("data", items)] = items := rfl
    rw [h, List.length_map]
  · intro item h1 h2
    have e1 : pyGet (normalize_api_item item) "title" "" =
        pyGet item "title" (pyGet item "name" "N/A") := rfl
    rw [e1]
    unfold pyGet
    rw [h1, h2]
    rfl
  · intro item h1 h2
    have e2 : pyGet (normalize_api_item item) "link" "" =
        pyGet item "url" (pyGet item "link" "N/A") := rfl
    rw [e2]
    unfold pyGet
    rw [h1, h2]
    rfl

/-- Witness for C2 amended at a concrete item: a raw item carrying only a
price still maps to a listing whose title is the sentinel. -/
theorem normalizer_keeps_missing_title_and_link_witness :
    pyGet (normalize_api_item [("price", "500")]) "title" "" = "N/A" :=
  (normalizer_keeps_missing_title_and_link []).2.1 [("price", "500")] rfl rfl

theorem csvRows_isOk (fns : List String) :
    ∀ l : List Raw, (∀ d ∈ l, (keysOf d).all (fun k => decide (k ∈ fns)) = true) →
      ∃ rows, csvRows fns l = Except.ok rows := by
  intro l
  induction l with
  | nil => intro _; exact ⟨[], rfl⟩
  | cons d t ih =>
    intro h
    have hd : (keysOf d).all (fun k => decide (k ∈ fns)) = true :=
      h d (List.mem_cons_self d t)
    obtain ⟨rows, hrows⟩ := ih (fun x hx => h x (List.mem_cons_of_mem d hx))
    have h1 : csvRow fns d = Except.ok (fns.map fun k => pyGet d k "") := by
      unfold csvRow
      rw [if_pos hd]
    refine ⟨(fns.map fun k => pyGet d k "") :: rows, ?_⟩
    simp [csvRows, h1, hrows]

/-- Counterexample to C8: a non-empty input sequence on which the write
fails with NO I/O error involved: the first listing has the six API-shaped
keys, the second carries the extra `source` key of the Amazon strategy.
`csv.DictWriter` takes its field names from the first listing, so writing
the second row raises `ValueError` — a data-shape error, not an I/O
error. -/
theorem save_results_fails_without_io_error :
    save_results "2025-01-01T00:00:00" [apiStyleListing, amazonStyleListing] =
      Except.error "ValueError: dict contains fields not in fieldnames" := by rfl

/-- C8 amended: absent an I/O error, the write completes (writing both
files) for every non-empty input sequence WHOSE LISTINGS all have keys
contained in the first listing's key set; a listing with a key the first
listing lacks makes the CSV writer raise a non-I/O `ValueError`. -/
theorem save_results_ok_of_uniform_keys (now : String) (first : Raw) (rest : List Raw)
    (h : ∀ d ∈ first :: rest, ∀ k ∈ keysOf d, k ∈ keysOf first) :
    ∃ out, save_results now (first :: rest) = Except.ok out := by
  have hb : ∀ d ∈ first :: rest,
      (keysOf d).all (fun k => decide (k ∈ keysOf first)) = true := by
    intro d hd
    rw [List.all_eq_true]
    intro k hk
    exact decide_eq_true (h d hd k hk)
  obtain ⟨rows, hrows⟩ := csvRows_isOk (keysOf first) (first :: rest) hb
  refine ⟨⟨keysOf first :: rows, now, (first :: rest).length, first :: rest⟩, ?_⟩
  simp [save_results, hrows]

/-- Witness for C8 amended at a concrete input: a single uniform listing
is written successfully. -/
theorem save_results_ok_of_uniform_keys_witness :
    ∃ out, save_results "2025-01-01" [apiStyleListing] = Except.ok out :=
  save_results_ok_of_uniform_keys "2025-01-01" apiStyleListing [] (by decide)

theorem probeLoop_spec (respond : String → ApiResp) (q loc : String) (lim : Nat) :
    ∀ urls : List String,
      (probeLoop respond q loc lim urls).1 =
        (urls.take ((urls.takeWhile fun u => !acceptable respond u).length + 1)).map
          (fun u => (u, apiParams q loc lim))
      ∧ (probeLoop respond q loc lim urls).2 =
          (match urls.find? (acceptable respond) with
           | some u => parse_api_response (payloadOf respond u)
           | none => []) := by
  intro urls
  induction urls with
  | nil => exact ⟨rfl, rfl⟩
  | cons u rest ih =>
    by_cases ha : acceptable respond u = true
    · have htw : ((u :: rest).takeWhile fun v => !acceptable respond v) = [] := by
        simp [List.takeWhile_cons, ha]
      have hfind : (u :: rest).find? (acceptable respond) = some u := by
        simp [List.find?, ha]
      cases hr : respond u with
      | raises => rw [acceptable, hr] at ha; exact absurd ha (by simp)
      | status code body =>
        cases body with
        | none => rw [acceptable, hr] at ha; exact absurd ha (by simp)
        | some p =>
          have hcond : (decide (code = 200) && hasExpectedKey p) = true := by
            rw [acceptable, hr] at ha; exact ha
          have hred : probeLoop respond q loc lim (u :: rest) =
              ([(u, apiParams q loc lim)], parse_api_response p) := by
            simp only [probeLoop, hr]
            rw [if_pos hcond]
          constructor
          · rw [hred, htw]
            rfl
          · rw [hred, hfind]
            simp [payloadOf, hr]
    · have hne : acceptable respond u = false := by
        cases hb : acceptable respond u
        · rfl
        · exact absurd hb ha
      have htw : ((u :: rest).takeWhile fun v => !acceptable respond v) =
          u :: (rest.takeWhile fun v => !acceptable respond v) := by
        simp [List.takeWhile_cons, hne]
      have hfind : (u :: rest).find? (acceptable respond) =
          rest.find? (acceptable respond) := by
        simp [List.find?, hne]
      have hred : probeLoop respond q loc lim (u :: rest) =
          ((u, apiParams q loc lim) :: (probeLoop respond q loc lim rest).1,
           (probeLoop respond q loc lim rest).2) := by
        cases hr : respond u with
        | raises => simp [probeLoop, hr]
        | status code body =>
          cases body with
          | none => simp [probeLoop, hr]
          | some p =>
            have hcond : (decide (code = 200) && hasExpectedKey p) = false := by
              rw [acceptable, hr] at hne; exact hne
            simp only [probeLoop, hr]
            rw [if_neg (by simp [hcond])]
      constructor
      · rw [hred, htw]
        simp only [List.length_cons, List.take_succ_cons, List.map_cons]
        rw [ih.1]
      · rw [hred, hfind]
        exact ih.2

/-- C10: the endpoint probe iterates the fixed candidate list in order,
attaching the query as the `q` parameter of every request; it requests
exactly the candidates up to and including the first acceptable one (an
endpoint answering 200 with a JSON payload holding one of the expected
top-level keys `data`/`results`/`ads`); that first acceptable payload is
parsed and returned and the remaining candidates are skipped; if no
candidate is acceptable, every candidate is requested and the result is
the empty sequence, not an error. -/
theorem endpoint_probe_first_success (respond : String → ApiResp) (q loc : String)
    (lim : Nat) :
    (search_olx_api respond q loc lim).1 =
      (api_urls.take ((api_urls.takeWhile fun u => !acceptable respond u).length + 1)).map
        (fun u => (u, apiParams q loc lim))
    ∧ (∀ r ∈ (search_olx_api respond q loc lim).1, ("q", q) ∈ r.2)
    ∧ (search_olx_api respond q loc lim).2 =
        (match api_urls.find? (acceptable respond) with
         | some u => parse_api_response (payloadOf respond u)
         | none => []) := by
  have h := probeLoop_spec respond q loc lim api_urls
  refine ⟨h.1, ?_, h.2⟩
  intro r hr
  have h1 : (search_olx_api respond q loc lim).1 =
      (api_urls.take ((api_urls.takeWhile fun u => !acceptable respond u).length + 1)).map
        (fun u => (u, apiParams q loc lim)) := h.1
  rw [h1] at hr
  obtain ⟨u, _, rfl⟩ := List.mem_map.mp hr
  simp [apiParams]

/-- Witness for C10 at a concrete network: with every endpoint raising,
the first issued request still carries the query parameter. -/
theorem endpoint_probe_first_success_witness :
    ("q", "car cover") ∈
      (("https://www.olx.in/api/relevance/v2/search",
        apiParams "car cover" "" 50) : String × List (String × String)).2 :=
  (endpoint_probe_first_success respondNone "car cover" "" 50).2.1
    ("https://www.olx.in/api/relevance/v2/search", apiParams "car cover" "" 50)
    (by decide)

end OLX
